import Mathlib

set_option maxRecDepth 10000
set_option maxHeartbeats 1000000

/-!
Verification of the arenaplus background wallet script
(`src/background/features/walletUnlock.ts` and `src/services/walletService.ts`).

The TypeScript background script is a single-threaded, event-driven message
handler mutating module-level state (`isUnlocked`, `inMemoryWallet`, `nonce`,
`createPromotionInFlight`, the two pending-approval maps).  We embed it as
pure Lean functions: module state becomes the `BgState` record threaded in
and out; every `await` of an external call (ethers contract reads, transaction
broadcasts, `getNonce`) becomes an environment field holding the outcome the
external world would have produced (`Except JsError a` where the call can
throw).  JavaScript string falsiness (`x || y`) is modelled by testing
emptiness of a `String`; JS numbers carried in payloads are modelled as `Int`
(the claims only involve integer-valued amounts); token amount strings are
modelled by the integer they parse to via `ethers.parseUnits`.
-/

namespace ArenaPlus

/-- JavaScript `a || b || ...` on strings: first non-empty (truthy) entry,
or `""` if all are empty. -/
def firstTruthy : List String → String
  | [] => ""
  | x :: rest => if x = "" then firstTruthy rest else x

/-- JavaScript `String.prototype.startsWith`, modelled on the character
list so it evaluates inside the kernel. -/
def jsStartsWith (s pre : String) : Bool := pre.data.isPrefixOf s.data

/-- A thrown JavaScript error object as the background script inspects it:
`code`, `message`, `reason`, `shortMessage`, `data.message`, `error.message`.
Absent properties are modelled as `""`. -/
structure JsError where
  code : String
  message : String
  reason : String
  shortMessage : String
  dataMessage : String
  errMessage : String
  deriving Repr, DecidableEq

/-- A `JsError` with all fields absent except `code` and `message`. -/
def JsError.ofCodeMsg (code message : String) : JsError :=
  { code := code, message := message, reason := "", shortMessage := "",
    dataMessage := "", errMessage := "" }

/-- The `{ success, error?, txHash? }` response shape used by every handler. -/
structure Resp where
  success : Bool
  error : Option String
  txHash : Option String
  deriving Repr, DecidableEq

/-- `{ success: false, error: e }`. -/
def Resp.fail (e : String) : Resp := { success := false, error := some e, txHash := none }

/-- `{ success: true }`. -/
def Resp.ok : Resp := { success := true, error := none, txHash := none }

/-- `{ success: true, txHash: h }`. -/
def Resp.okHash (h : String) : Resp := { success := true, error := none, txHash := some h }

/-- `chrome.runtime.MessageSender` as consulted by `isTrustedSender`:
string-valued properties, `""` standing for an absent/undefined field. -/
structure MessageSender where
  senderId : String
  originField : String
  urlField : String
  tabUrl : String
  documentId : String
  tabId : Option Nat
  deriving Repr, DecidableEq

/-- `isTrustedSender` (walletUnlock.ts lines 77-94): the sender is the
extension itself (`sender.id === chrome.runtime.id`), or the first truthy of
`sender.origin || sender.url || sender.tab?.url || sender.documentId || ""`
starts with one of the three allow-listed origins. -/
def isTrustedSender (runtimeId : String) (s : MessageSender) : Bool :=
  (s.senderId ≠ "" && runtimeId ≠ "" && s.senderId == runtimeId) ||
    (let origin := firstTruthy [s.originField, s.urlField, s.tabUrl, s.documentId]
     jsStartsWith origin "https://arena.social" ||
       jsStartsWith origin "https://www.x.com" ||
       jsStartsWith origin "https://x.com")

/-- `ethers.parseUnits` restricted to integer-valued amount strings:
the amount scaled by `10 ^ decimals`. -/
def parseUnits (v : Int) (d : Nat) : Int := v * (10 : Int) ^ d

/-- `err?.code === "REPLACEMENT_UNDERPRICED" || err?.code === "NONCE_EXPIRED"`:
the structured-code half of the nonce-conflict test. -/
def isNonceConflictCode (c : String) : Bool :=
  c == "REPLACEMENT_UNDERPRICED" || c == "NONCE_EXPIRED"

/-- Whether `pat` occurs as a substring of `s` (used to model the
`/nonce (too low|already used)/i` regex test). -/
def containsSub (s pat : String) : Bool := (s.splitOn pat).length ≠ 1

/-- The regex `/nonce (too low|already used)/i.test(reason)` on an
already-lowercased comparison. -/
def nonceRegexHit (reason : String) : Bool :=
  containsSub reason.toLower "nonce too low" ||
    containsSub reason.toLower "nonce already used"

/-! ## executeSendTip (walletUnlock.ts lines 96-174) -/

/-- Outcomes of the external calls `executeSendTip` awaits, in program
order: `token.decimals()`, `token.balanceOf(...)`, `token.transfer(...)`
(returning the tx hash), the background `tx.wait()`, and — only inside the
catch block — `signer.getNonce("latest")` for the resync. -/
structure TipEnv where
  decimalsResult : Except JsError Nat
  balanceResult : Except JsError Int
  transferResult : Except JsError String
  confirmationOk : Bool
  resyncResult : Except Unit Nat
  deriving Repr

/-- The fields of a `SEND_TIP` message that `executeSendTip` reads. -/
structure TipMessage where
  toAddress : String
  amount : Int
  tokenAddress : String
  deriving Repr, DecidableEq

/-- What one `executeSendTip` call did: the response returned, the cached
nonce afterwards, the nonces handed to `token.transfer` broadcast attempts,
and the post-broadcast confirmation effects (`BALANCE_UPDATED` notification
on success, a log line on failure). -/
structure TipOutcome where
  response : Resp
  nonceAfter : Option Nat
  broadcasts : List Nat
  balanceNotified : Bool
  confirmFailureLogged : Bool
  deriving Repr, DecidableEq

/-- Error surfaced from the tip catch block:
`err?.message || err?.reason || err?.shortMessage || "Failed to send tip"`. -/
def tipSurfacedError (e : JsError) : String :=
  let m := firstTruthy [e.message, e.reason, e.shortMessage]
  if m = "" then "Failed to send tip" else m

/-- The catch block of `executeSendTip`: on a structured nonce-conflict code,
re-read `getNonce("latest")` and overwrite the cache (keeping the current
cache if the re-read itself throws), then return the surfaced error. -/
def tipCatch (env : TipEnv) (e : JsError) (nonceNow : Option Nat)
    (broadcasts : List Nat) : TipOutcome :=
  let nonceAfter :=
    if isNonceConflictCode e.code then
      match env.resyncResult with
      | .ok m => some m
      | .error _ => nonceNow
    else nonceNow
  { response := Resp.fail (tipSurfacedError e), nonceAfter := nonceAfter,
    broadcasts := broadcasts, balanceNotified := false,
    confirmFailureLogged := false }

/-- `executeSendTip` (walletUnlock.ts lines 96-174).  Guards: wallet locked,
nonce uninitialized.  Then `currentNonce = nonce; nonce++` reserves the nonce
*before* any other work; `decimals()`, the balance check (returning
`INSUFFICIENT_BALANCE` without broadcasting), `transfer` at the reserved
nonce; on success the response returns at once while `tx.wait()` resolves in
the background into a notification or a log line. -/
def executeSendTip (unlocked hasWallet : Bool) (nonce0 : Option Nat)
    (env : TipEnv) (msg : TipMessage) : TipOutcome :=
  if !unlocked || !hasWallet then
    { response := Resp.fail "Wallet is locked.", nonceAfter := nonce0,
      broadcasts := [], balanceNotified := false, confirmFailureLogged := false }
  else
    match nonce0 with
    | none =>
      { response :=
          Resp.fail "Nonce not initialized. Please wait a moment and try again.",
        nonceAfter := none, broadcasts := [], balanceNotified := false,
        confirmFailureLogged := false }
    | some n =>
      -- const currentNonce = nonce; nonce++;
      match env.decimalsResult with
      | .error e => tipCatch env e (some (n + 1)) []
      | .ok d =>
        let parsedAmount := parseUnits msg.amount d
        match env.balanceResult with
        | .error e => tipCatch env e (some (n + 1)) []
        | .ok bal =>
          if bal < parsedAmount then
            { response := Resp.fail "INSUFFICIENT_BALANCE",
              nonceAfter := some (n + 1), broadcasts := [],
              balanceNotified := false, confirmFailureLogged := false }
          else
            match env.transferResult with
            | .error e => tipCatch env e (some (n + 1)) [n]
            | .ok h =>
              { response := Resp.okHash h, nonceAfter := some (n + 1),
                broadcasts := [n], balanceNotified := env.confirmationOk,
                confirmFailureLogged := !env.confirmationOk }

/-! ## unlockAndInitializeWallet and decryptWallet -/

/-- `unlockAndInitializeWallet` (walletUnlock.ts lines 7-41).
`stored` is whether `chrome.storage.local` holds a `walletData` record;
`decryptResult` is the outcome of `decryptPrivateKey` (throw, or a key that
may be falsy); `walletCtor` is the outcome of `new ethers.Wallet(...)`
(address derivation), whose throw is also caught by the same catch.
Returns the resolved address or the thrown error message. -/
def unlockAndInitializeWallet (stored : Option Unit)
    (decryptResult : Except JsError String)
    (walletCtor : String → Except JsError String) : Except String String :=
  match stored with
  | none => .error "No wallet found in storage."
  | some _ =>
    match decryptResult with
    | .error _ => .error "Invalid password."
    | .ok pk =>
      if pk = "" then .error "Invalid password."
      else
        match walletCtor pk with
        | .error _ => .error "Invalid password."
        | .ok address => .ok address

/-- `decryptWallet` (walletService.ts lines 58-78): any `decryptPrivateKey`
throw, and a falsy decrypted key, are both reported as "Incorrect password". -/
def decryptWallet (decryptResult : Except JsError String) : Except String String :=
  match decryptResult with
  | .error _ => .error "Incorrect password"
  | .ok pk => if pk = "" then .error "Incorrect password" else .ok pk

/-! ## executeCreatePromotion (walletUnlock.ts lines 452-702) -/

/-- `ethers.ZeroAddress`. -/
def ethZeroAddress : String := "0x0000000000000000000000000000000000000000"

/-- Abstraction of `ethers.formatUnits`, used only inside a human-readable
error string; no claim depends on the exact decimal rendering. -/
def formatUnits (v : Int) (d : Nat) : String :=
  toString v ++ "e-" ++ toString d

/-- The `CREATE_PROMOTION` payload as destructured by
`executeCreatePromotion`; `none` models an absent (undefined) property. -/
structure PromoPayloadOpt where
  promotionType : Option Int
  slots : Option Int
  amount : Option Int
  minFollowers : Option Int
  expiresOn : Option Int
  postId : Option String
  contentURI : Option String
  content : Option String
  rewardTokenAddress : Option String
  arenaUserId : Option String
  contextId : String
  deriving Repr

/-- Outcomes of the external calls `executeCreatePromotion` awaits, in
program order: contract construction (`getPost2EarnAddressOrThrow` /
`getPost2EarnContract`, whose local catch defaults the message),
`platformToken()`, `decimals()` (its own catch assumes 18), `balanceOf`,
`allowance`, `getNonce("pending")`, `approve`, `approveTx.wait()`,
`createPromotion` (hash), plus the wall clock, the background confirmation
outcome, and the catch-block `getNonce("latest")` resync.  `isAddressFn`
is the (pure, external) `ethers.isAddress` predicate. -/
structure PromoEnv where
  post2earnResult : Except String String
  platformTokenResult : Except JsError String
  isAddressFn : String → Bool
  decimalsResult : Except JsError Nat
  balanceResult : Except JsError Int
  allowanceResult : Except JsError Int
  pendingNonceResult : Except JsError Nat
  approveResult : Except JsError String
  approveWaitResult : Except JsError Unit
  createResult : Except JsError String
  nowTs : Int
  confirmationOk : Bool
  resyncResult : Except Unit Nat

/-- What one `executeCreatePromotion` call did. -/
structure PromoOutcome where
  response : Resp
  nonceAfter : Option Nat
  inFlightAfter : Bool
  broadcasts : List Nat
  balanceNotified : Bool
  confirmFailureLogged : Bool
  deriving Repr, DecidableEq

/-- A plain validation rejection inside the promotion try block:
in-flight flag released by `finally`, cache untouched. -/
def PromoOutcome.failed (e : String) (nonce0 : Option Nat) : PromoOutcome :=
  { response := Resp.fail e, nonceAfter := nonce0, inFlightAfter := false,
    broadcasts := [], balanceNotified := false, confirmFailureLogged := false }

/-- Error surfaced from the promotion catch block: `err?.reason ||
err?.shortMessage || err?.data?.message || err?.error?.message ||
err?.message || "Transaction failed"`. -/
def promoSurfacedError (e : JsError) : String :=
  let m := firstTruthy [e.reason, e.shortMessage, e.dataMessage, e.errMessage, e.message]
  if m = "" then "Transaction failed" else m

/-- The promotion catch block: nonce conflict detected by structured code or
by the `/nonce (too low|already used)/i` regex on the surfaced reason;
conflict triggers a `getNonce("latest")` resync overwriting the cache. -/
def promoCatch (env : PromoEnv) (e : JsError) (nonce0 : Option Nat)
    (broadcasts : List Nat) : PromoOutcome :=
  let reason := promoSurfacedError e
  let nonceAfter :=
    if isNonceConflictCode e.code || nonceRegexHit reason then
      match env.resyncResult with
      | .ok m => some m
      | .error _ => nonce0
    else nonce0
  { response := Resp.fail reason, nonceAfter := nonceAfter,
    inFlightAfter := false, broadcasts := broadcasts,
    balanceNotified := false, confirmFailureLogged := false }

/-- Final submission step of `executeCreatePromotion`: broadcast
`createPromotion` at `promoNonce` and, on success, set the cache to
`promoNonce + 1` and return the hash while `tx.wait()` resolves in the
background. -/
def finishPromo (env : PromoEnv) (nonce0 : Option Nat) (promoNonce : Nat)
    (priorBroadcasts : List Nat) : PromoOutcome :=
  match env.createResult with
  | .error e => promoCatch env e nonce0 (priorBroadcasts ++ [promoNonce])
  | .ok h =>
    { response := Resp.okHash h, nonceAfter := some (promoNonce + 1),
      inFlightAfter := false, broadcasts := priorBroadcasts ++ [promoNonce],
      balanceNotified := env.confirmationOk,
      confirmFailureLogged := !env.confirmationOk }

/-- `executeCreatePromotion`, balance-and-submission region
(walletUnlock.ts lines 586-667): `balanceOf` check, `allowance` read,
`baseNonce = await signer.getNonce("pending")`, the optional awaited
`approve` at `baseNonce`, then the promotion broadcast. -/
def promoSubmit (env : PromoEnv) (nonce0 : Option Nat) (vaultAmount : Int)
    (tokenDecimals : Nat) : PromoOutcome :=
  match env.balanceResult with
  | .error e => promoCatch env e nonce0 []
  | .ok balance =>
    if balance < vaultAmount then
      PromoOutcome.failed
        ("Insufficient balance. Need " ++
          formatUnits vaultAmount tokenDecimals ++ ", have " ++
          formatUnits balance tokenDecimals ++ ".") nonce0
    else
      match env.allowanceResult with
      | .error e => promoCatch env e nonce0 []
      | .ok currentAllowance =>
        match env.pendingNonceResult with
        | .error e => promoCatch env e nonce0 []
        | .ok baseNonce =>
          if currentAllowance < vaultAmount then
            match env.approveResult with
            | .error e => promoCatch env e nonce0 [baseNonce]
            | .ok _approveHash =>
              match env.approveWaitResult with
              | .error e => promoCatch env e nonce0 [baseNonce]
              | .ok _ => finishPromo env nonce0 (baseNonce + 1) [baseNonce]
          else
            finishPromo env nonce0 baseNonce []

/-- `executeCreatePromotion`, reward-token and amount region
(walletUnlock.ts lines 516-584): resolve the reward token (payload value or
`platformToken()`), validate it, read `decimals()` (assuming 18 on throw),
compute `vaultAmount` and `rewardPerSlot`, and run the remaining amount and
expiry checks. -/
def promoTokenStage (env : PromoEnv) (nonce0 : Option Nat)
    (p : PromoPayloadOpt) : PromoOutcome :=
  let rta := p.rewardTokenAddress.getD ""
  match (if rta = "" then env.platformTokenResult else .ok rta) with
  | .error e => promoCatch env e nonce0 []
  | .ok onchainRewardToken =>
    if onchainRewardToken = "" || !env.isAddressFn onchainRewardToken ||
        onchainRewardToken = ethZeroAddress then
      PromoOutcome.failed
        "Invalid reward token address returned by contract." nonce0
    else
      let tokenDecimals :=
        match env.decimalsResult with
        | .ok d => d
        | .error _ => 18
      let vaultAmount := parseUnits (p.amount.getD 0) tokenDecimals
      let rewardPerSlot := vaultAmount / p.slots.getD 0
      if p.slots.getD 0 < 1 then
        PromoOutcome.failed "Slots must be at least 1." nonce0
      else if vaultAmount ≤ 0 then
        PromoOutcome.failed "Vault amount must be greater than 0." nonce0
      else if p.expiresOn.getD 0 ≤ env.nowTs then
        PromoOutcome.failed "Expiry must be in the future." nonce0
      else if rewardPerSlot ≤ 0 then
        PromoOutcome.failed "Amount too low for given slots." nonce0
      else
        promoSubmit env nonce0 vaultAmount tokenDecimals

/-- `executeCreatePromotion` (walletUnlock.ts lines 452-702).  Guards:
locked wallet, uninitialized nonce cache, `createPromotionInFlight`; then
the payload validations, the contract construction, and the token /
submission stages.  The submission nonce is read from the ledger
(`getNonce("pending")`), not from the cache; the cache is only overwritten
to `promoNonce + 1` after a successful broadcast. -/
def executeCreatePromotion (unlocked hasWallet : Bool) (nonce0 : Option Nat)
    (inFlight : Bool) (env : PromoEnv) (p : PromoPayloadOpt) : PromoOutcome :=
  if !unlocked || !hasWallet then
    { response := Resp.fail "Wallet is locked.", nonceAfter := nonce0,
      inFlightAfter := inFlight, broadcasts := [], balanceNotified := false,
      confirmFailureLogged := false }
  else if nonce0 = none then
    { response :=
        Resp.fail "Nonce not initialized. Please wait a moment and try again.",
      nonceAfter := nonce0, inFlightAfter := inFlight, broadcasts := [],
      balanceNotified := false, confirmFailureLogged := false }
  else if inFlight then
    { response := Resp.fail "Another promotion is in progress. Please wait.",
      nonceAfter := nonce0, inFlightAfter := true, broadcasts := [],
      balanceNotified := false, confirmFailureLogged := false }
  else if p.postId.getD "" = "" then
    PromoOutcome.failed "Missing postId." nonce0
  else if p.slots.getD 0 < 1 then
    PromoOutcome.failed "Slots must be at least 1." nonce0
  else if p.amount.getD 0 ≤ 0 then
    PromoOutcome.failed "Amount must be greater than 0." nonce0
  else if p.arenaUserId.getD "" = "" then
    PromoOutcome.failed "Arena User ID is required." nonce0
  else
    match env.post2earnResult with
    | .error m =>
      PromoOutcome.failed
        (if m = "" then "Invalid Post2Earn contract address." else m) nonce0
    | .ok _addr => promoTokenStage env nonce0 p

/-! ## executeSubscribeToToken (walletUnlock.ts lines 704-795) -/

/-- The `SUBSCRIBE_TO_TOKEN` payload as destructured by
`executeSubscribeToToken`. -/
structure SubPayloadOpt where
  tokenAddress : Option String
  arenaUserId : Option String
  months : Option Int
  deriving Repr

/-- Outcomes of the external calls `executeSubscribeToToken` awaits:
contract construction, `subscriptionFee()`, the native AVAX balance,
`getNonce("pending")`, the `subscribe` broadcast, the background
confirmation, and the catch-block resync. -/
structure SubEnv where
  isAddressFn : String → Bool
  post2earnResult : Except String Unit
  feeResult : Except JsError Int
  avaxBalanceResult : Except JsError Int
  pendingNonceResult : Except JsError Nat
  subscribeResult : Except JsError String
  confirmationOk : Bool
  resyncResult : Except Unit Nat

/-- What one `executeSubscribeToToken` call did. -/
structure SubOutcome where
  response : Resp
  nonceAfter : Option Nat
  broadcasts : List Nat
  balanceNotified : Bool
  confirmFailureLogged : Bool
  deriving Repr, DecidableEq

/-- A plain rejection from the subscription path, cache untouched. -/
def SubOutcome.failed (e : String) (nonce0 : Option Nat) : SubOutcome :=
  { response := Resp.fail e, nonceAfter := nonce0, broadcasts := [],
    balanceNotified := false, confirmFailureLogged := false }

/-- Error surfaced from the subscription catch block:
`err?.reason || err?.message || "Subscription failed"`. -/
def subSurfacedError (e : JsError) : String :=
  let m := firstTruthy [e.reason, e.message]
  if m = "" then "Subscription failed" else m

/-- The subscription catch block, with the same conflict test and resync
as the promotion path. -/
def subCatch (env : SubEnv) (e : JsError) (nonce0 : Option Nat)
    (broadcasts : List Nat) : SubOutcome :=
  let reason := subSurfacedError e
  let nonceAfter :=
    if isNonceConflictCode e.code || nonceRegexHit reason then
      match env.resyncResult with
      | .ok m => some m
      | .error _ => nonce0
    else nonce0
  { response := Resp.fail reason, nonceAfter := nonceAfter,
    broadcasts := broadcasts, balanceNotified := false,
    confirmFailureLogged := false }

/-- `executeSubscribeToToken` (walletUnlock.ts lines 704-795).  As in the
promotion path, the submission nonce is read from the ledger via
`getNonce("pending")`, and the cache is overwritten to `baseNonce + 1`
after the broadcast. -/
def executeSubscribeToToken (unlocked hasWallet : Bool) (nonce0 : Option Nat)
    (env : SubEnv) (p : SubPayloadOpt) : SubOutcome :=
  if !unlocked || !hasWallet then
    SubOutcome.failed "Wallet is locked." nonce0
  else if nonce0 = none then
    SubOutcome.failed "Nonce not initialized. Please wait a moment and try again."
      nonce0
  else
    let tokenAddress := p.tokenAddress.getD ""
    let arenaUserId := p.arenaUserId.getD ""
    let months := p.months.getD 0
    if tokenAddress = "" || !env.isAddressFn tokenAddress then
      SubOutcome.failed "Invalid token address." nonce0
    else if arenaUserId = "" then
      SubOutcome.failed "Arena User ID is required." nonce0
    else if months < 1 then
      SubOutcome.failed "Invalid duration." nonce0
    else
      match env.post2earnResult with
      | .error m =>
        SubOutcome.failed
          (if m = "" then "Invalid Post2Earn contract address." else m) nonce0
      | .ok _ =>
        match env.feeResult with
        | .error e => subCatch env e nonce0 []
        | .ok fee =>
          let totalFee := fee * months
          match env.avaxBalanceResult with
          | .error e => subCatch env e nonce0 []
          | .ok balance =>
            if balance < totalFee then
              SubOutcome.failed "Insufficient AVAX balance for subscription fee."
                nonce0
            else
              match env.pendingNonceResult with
              | .error e => subCatch env e nonce0 []
              | .ok baseNonce =>
                match env.subscribeResult with
                | .error e => subCatch env e nonce0 [baseNonce]
                | .ok h =>
                  { response := Resp.okHash h,
                    nonceAfter := some (baseNonce + 1),
                    broadcasts := [baseNonce],
                    balanceNotified := env.confirmationOk,
                    confirmFailureLogged := !env.confirmationOk }

/-! ## executeTipShowerBatch (walletUnlock.ts lines 381-450) -/

/-- A tip-shower recipient (`{ handle, address }`). -/
structure Recipient where
  handle : String
  address : String
  deriving Repr, DecidableEq

/-- Environment of a tip-shower batch: the `TipEnv` seen by the k-th
`executeSendTip` call, the `TOKENS_MAP` address lookup, and
`PLUS_TOKEN.address`. -/
structure BatchEnv where
  tipEnvAt : Nat → TipEnv
  tokensMapAddr : String → Option String
  plusTokenAddr : String

/-- What one `executeTipShowerBatch` call did: the response, the cache
afterwards, how many `executeSendTip` calls were made, and all broadcast
nonces in order. -/
structure BatchOutcome where
  response : Resp
  nonceAfter : Option Nat
  sendTipCalls : Nat
  broadcasts : List Nat
  deriving Repr, DecidableEq

/-- The `for (const recipient of payload.recipients)` loop: run
`executeSendTip` per recipient, threading the nonce cache, stopping at the
first failure with `result.error || "Failed to complete tip shower."`. -/
def tipBatchLoop (unlocked hasWallet : Bool) (env : BatchEnv)
    (amountPerTip : Int) (tokenAddress : String) :
    Option Nat → Nat → List Recipient → BatchOutcome
  | n0, _, [] =>
    { response := Resp.ok, nonceAfter := n0, sendTipCalls := 0, broadcasts := [] }
  | n0, k, r :: rest =>
    let o := executeSendTip unlocked hasWallet n0 (env.tipEnvAt k)
      { toAddress := r.address, amount := amountPerTip,
        tokenAddress := tokenAddress }
    if o.response.success then
      let res := tipBatchLoop unlocked hasWallet env amountPerTip tokenAddress
        o.nonceAfter (k + 1) rest
      { response := res.response, nonceAfter := res.nonceAfter,
        sendTipCalls := res.sendTipCalls + 1,
        broadcasts := o.broadcasts ++ res.broadcasts }
    else
      { response := Resp.fail (o.response.error.getD "Failed to complete tip shower."),
        nonceAfter := o.nonceAfter, sendTipCalls := 1, broadcasts := o.broadcasts }

/-- The `TipShowerBatchPayload` fields `executeTipShowerBatch` reads
(`""` modelling an absent string). -/
structure BatchPayload where
  recipients : List Recipient
  amountPerTip : Int
  tokenSymbol : String
  tokenAddress : String
  contextId : String
  tabId : Option Nat
  deriving Repr

/-- `executeTipShowerBatch` (walletUnlock.ts lines 381-450): locked guard,
empty-recipients guard, token resolution
(`payload.tokenAddress || TOKENS_MAP[symbol]?.address || PLUS_TOKEN.address`),
then the per-recipient loop. -/
def executeTipShowerBatch (unlocked hasWallet : Bool) (nonce0 : Option Nat)
    (env : BatchEnv) (p : BatchPayload) : BatchOutcome :=
  if !unlocked || !hasWallet then
    { response := Resp.fail "Wallet is locked.", nonceAfter := nonce0,
      sendTipCalls := 0, broadcasts := [] }
  else if p.recipients.isEmpty then
    { response := Resp.fail "No tip recipients provided.", nonceAfter := nonce0,
      sendTipCalls := 0, broadcasts := [] }
  else
    let tokenSymbol :=
      (if p.tokenSymbol = "" then "PLUS" else p.tokenSymbol).toUpper
    let tokenAddress :=
      firstTruthy [p.tokenAddress, (env.tokensMapAddr tokenSymbol).getD "",
        env.plusTokenAddr]
    tipBatchLoop unlocked hasWallet env p.amountPerTip tokenAddress nonce0 0
      p.recipients

/-! ## Module state and approval maps -/

/-- `PendingTipShowerApproval` (walletUnlock.ts lines 261-268).  The
`amountPerTip` string is modelled by its integer value; `queueId` is `""`
when absent. -/
structure PendingTipShowerApproval where
  amountPerTip : Int
  tokenSymbol : String
  tokenAddress : String
  queueId : String
  approved : Bool
  tabId : Option Nat
  deriving Repr, DecidableEq

/-- `PendingCreatePromotionApproval` (walletUnlock.ts lines 273-287). -/
structure PendingCreatePromotionApproval where
  promotionType : Int
  slots : Int
  amount : Int
  minFollowers : Int
  expiresOn : Int
  postId : String
  contentURI : String
  rewardTokenAddress : String
  rewardTokenSymbol : String
  arenaUserId : String
  queueId : String
  approved : Bool
  tabId : Option Nat
  deriving Repr, DecidableEq

/-- `Map.get`. -/
def mapGet (l : List (String × α)) (k : String) : Option α := l.lookup k

/-- `Map.delete`. -/
def mapErase (l : List (String × α)) (k : String) : List (String × α) :=
  l.filter (fun kv => kv.1 ≠ k)

/-- `Map.set` (replace any existing binding). -/
def mapSet (l : List (String × α)) (k : String) (v : α) : List (String × α) :=
  (k, v) :: mapErase l k

/-- The module-level mutable state of the background script:
`isUnlocked`, `inMemoryWallet` (presence only), `nonce`,
`createPromotionInFlight`, and the two pending-approval maps. -/
structure BgState where
  isUnlocked : Bool
  hasWallet : Bool
  nonce : Option Nat
  createPromotionInFlight : Bool
  tipShowerApprovals : List (String × PendingTipShowerApproval)
  promoApprovals : List (String × PendingCreatePromotionApproval)

/-! ## The onMessage dispatcher (walletUnlock.ts lines 872-2516)

Only the cases the claims are about are embedded; each message payload is
modelled after the coercions the handler applies at entry
(`String(x || "")`, `Number(x || 0)`, `x ?? y`).  Calls into the wallet
action queue (`walletActions.enqueue` / `cancelById`) are recorded as
effects: the queue implementation lives outside the analysed sources and no
claim depends on its internals, only on whether and with what the background
script invoked it. -/

/-- `REQUEST_TIP_SHOWER_APPROVAL` payload after entry coercion:
`count = Number(payload.count || payload.totalPosts || 0)`,
`amountPerTip = String(payload.amountPerTip ?? payload.amount ?? "")`
(modelled as `none` when both are absent). -/
structure TipShowerApprovalRequest where
  contextId : String
  count : Int
  amountPerTip : Option Int
  tokenSymbol : String
  deriving Repr

/-- `REQUEST_CREATE_PROMOTION_APPROVAL` payload after entry coercion. -/
structure PromoApprovalRequest where
  contextId : String
  promotionType : Int
  slots : Int
  amount : Int
  minFollowers : Int
  expiresOn : Int
  postId : String
  contentURI : String
  rewardTokenAddress : String
  rewardTokenSymbol : String
  arenaUserId : String
  deriving Repr

/-- `QUEUE_TIP_SHOWER` payload (recipients are filtered in the handler). -/
structure QueueTipShowerPayload where
  useExistingApprovalContext : Bool
  contextId : String
  recipients : List Recipient
  amountPerTip : Int
  tokenSymbol : String
  tokenAddress : String
  deriving Repr

/-- `TIP_SHOWER_BATCH` payload
(`amountPerTip = String(payload.amountPerTip ?? payload.amount ?? "")`). -/
structure TipShowerBatchMsg where
  recipients : List Recipient
  amountPerTip : Option Int
  tokenSymbol : String
  tokenAddress : String
  contextId : String
  deriving Repr

/-- The messages the claims are about. -/
inductive Msg where
  | sendTip (m : TipMessage) (tokenSymbol recipientHandle : String)
  | requestTipShowerApproval (p : TipShowerApprovalRequest)
  | cancelTipShowerApproval (contextId reason : String)
  | requestCreatePromotionApproval (p : PromoApprovalRequest)
  | cancelCreatePromotionApproval (contextId reason : String)
  | queueTipShower (p : QueueTipShowerPayload)
  | tipShowerBatch (p : TipShowerBatchMsg)
  | createPromotion (p : PromoPayloadOpt)
  | subscribeToToken (p : SubPayloadOpt)

/-- Environment of one dispatch: the extension's own runtime id, the
environments of the three executors, and the queue id `enqueue` would
return. -/
structure Env where
  runtimeId : String
  batch : BatchEnv
  promo : PromoEnv
  sub : SubEnv
  tokensMapAddr : String → Option String
  freshQueueId : String

/-- What one dispatch did: the synchronous (or promise-resolved) response —
`none` when the response is deferred to the action queue's callbacks —
the state afterwards, the titles passed to `walletActions.enqueue`, the
queue ids passed to `walletActions.cancelById`, whether each executor body
actually ran, how many `executeSendTip` calls happened, every broadcast
nonce, and the contexts for which a denial notification went out. -/
structure Outcome where
  response : Option Resp
  state : BgState
  enqueued : List String
  cancelledQueue : List String
  ranBatch : Bool
  ranCreatePromotion : Bool
  ranSubscribe : Bool
  sendTipCalls : Nat
  broadcasts : List Nat
  deniedNotices : List String

/-- An outcome that only responds, leaving the state untouched. -/
def Outcome.pure (st : BgState) (r : Option Resp) : Outcome :=
  { response := r, state := st, enqueued := [], cancelledQueue := [],
    ranBatch := false, ranCreatePromotion := false, ranSubscribe := false,
    sendTipCalls := 0, broadcasts := [], deniedNotices := [] }

/-- `{...pendingFields, ...createPromoPayload}`: the approved context's
data overridden by any field the caller's payload carries. -/
def mergeApprovedPromo (pending : PendingCreatePromotionApproval)
    (p : PromoPayloadOpt) : PromoPayloadOpt :=
  { promotionType := some (p.promotionType.getD pending.promotionType),
    slots := some (p.slots.getD pending.slots),
    amount := some (p.amount.getD pending.amount),
    minFollowers := some (p.minFollowers.getD pending.minFollowers),
    expiresOn := some (p.expiresOn.getD pending.expiresOn),
    postId := some (p.postId.getD pending.postId),
    contentURI := some (p.contentURI.getD pending.contentURI),
    content := p.content,
    rewardTokenAddress := some (p.rewardTokenAddress.getD pending.rewardTokenAddress),
    arenaUserId := some (p.arenaUserId.getD pending.arenaUserId),
    contextId := p.contextId }

/-- The `.filter((item) => item && item.handle && item.address)` step. -/
def filterRecipients (rs : List Recipient) : List Recipient :=
  rs.filter (fun r => r.handle ≠ "" && r.address ≠ "")

/-- The `onMessage` listener, restricted to the embedded cases. -/
def onMessage (env : Env) (st : BgState) (sender : MessageSender) :
    Msg → Outcome
  | .sendTip _m _tokenSymbol _recipientHandle =>
    if !(isTrustedSender env.runtimeId sender) then
      Outcome.pure st (some (Resp.fail "Unauthorized sender"))
    else
      { Outcome.pure st none with enqueued := ["Send Tip"] }
  | .requestTipShowerApproval p =>
    if p.contextId = "" then
      Outcome.pure st (some (Resp.fail "Missing tip shower context."))
    else if (mapGet st.tipShowerApprovals p.contextId).isSome then
      Outcome.pure st (some (Resp.fail "A tip shower approval is already pending."))
    else if p.count ≤ 0 then
      Outcome.pure st (some (Resp.fail "Invalid post count."))
    else
      match p.amountPerTip with
      | none => Outcome.pure st (some (Resp.fail "Invalid tip amount."))
      | some amt =>
        if amt ≤ 0 then
          Outcome.pure st (some (Resp.fail "Invalid tip amount."))
        else
          let tokenSymbol :=
            (if p.tokenSymbol = "" then "PLUS" else p.tokenSymbol).toUpper
          match env.tokensMapAddr tokenSymbol with
          | none => Outcome.pure st (some (Resp.fail "Unsupported token."))
          | some tokenConfigAddr =>
            let entry : PendingTipShowerApproval :=
              { amountPerTip := amt, tokenSymbol := tokenSymbol,
                tokenAddress := tokenConfigAddr, queueId := env.freshQueueId,
                approved := false, tabId := sender.tabId }
            { Outcome.pure
                { st with tipShowerApprovals :=
                    mapSet st.tipShowerApprovals p.contextId entry }
                (some Resp.ok) with
              enqueued := ["Tip Shower"] }
  | .cancelTipShowerApproval contextId reason =>
    if contextId = "" then
      Outcome.pure st (some (Resp.fail "Missing tip shower context."))
    else
      match mapGet st.tipShowerApprovals contextId with
      | none =>
        Outcome.pure st (some (Resp.fail "No pending approval to cancel."))
      | some pending =>
        let _effectiveReason :=
          if reason = "" then "Tip shower cancelled." else reason
        let cancelled :=
          if !pending.approved && pending.queueId ≠ "" then [pending.queueId]
          else []
        { Outcome.pure
            { st with tipShowerApprovals := mapErase st.tipShowerApprovals contextId }
            (some Resp.ok) with
          cancelledQueue := cancelled }
  | .requestCreatePromotionApproval p =>
    if p.contextId = "" then
      Outcome.pure st (some (Resp.fail "Missing promotion context."))
    else if (mapGet st.promoApprovals p.contextId).isSome then
      Outcome.pure st (some (Resp.fail "A promotion approval is already pending."))
    else if p.slots ≤ 0 then
      Outcome.pure st (some (Resp.fail "Invalid slots count."))
    else if p.amount = 0 || p.amount < 100 then
      Outcome.pure st (some (Resp.fail "Minimum amount is 100 ARENA."))
    else
      let entry : PendingCreatePromotionApproval :=
        { promotionType := p.promotionType, slots := p.slots,
          amount := p.amount, minFollowers := p.minFollowers,
          expiresOn := p.expiresOn, postId := p.postId,
          contentURI := p.contentURI,
          rewardTokenAddress := p.rewardTokenAddress,
          rewardTokenSymbol :=
            if p.rewardTokenSymbol = "" then "ARENA" else p.rewardTokenSymbol,
          arenaUserId := p.arenaUserId, queueId := env.freshQueueId,
          approved := false, tabId := sender.tabId }
      { Outcome.pure
          { st with promoApprovals := mapSet st.promoApprovals p.contextId entry }
          (some Resp.ok) with
        enqueued := ["Create Promotion"] }
  | .cancelCreatePromotionApproval contextId reason =>
    if contextId = "" then
      Outcome.pure st (some (Resp.fail "Missing promotion context."))
    else
      match mapGet st.promoApprovals contextId with
      | none =>
        Outcome.pure st
          (some (Resp.fail "No pending promotion approval to cancel."))
      | some pending =>
        let _effectiveReason :=
          if reason = "" then "Promotion cancelled." else reason
        let cancelled :=
          if !pending.approved && pending.queueId ≠ "" then [pending.queueId]
          else []
        { Outcome.pure
            { st with promoApprovals := mapErase st.promoApprovals contextId }
            (some Resp.ok) with
          cancelledQueue := cancelled }
  | .queueTipShower p =>
    if p.useExistingApprovalContext then
      match mapGet st.tipShowerApprovals p.contextId with
      | none =>
        Outcome.pure st (some (Resp.fail "No pending wallet approval found."))
      | some pending =>
        if !pending.approved then
          Outcome.pure st (some (Resp.fail "Wallet approval is still pending."))
        else
          let recipients := filterRecipients p.recipients
          if recipients.isEmpty then
            { Outcome.pure
                { st with tipShowerApprovals :=
                    mapErase st.tipShowerApprovals p.contextId }
                (some (Resp.fail "No recipients provided.")) with
              deniedNotices := [p.contextId] }
          else
            let o := executeTipShowerBatch st.isUnlocked st.hasWallet st.nonce
              env.batch
              { recipients := recipients, amountPerTip := pending.amountPerTip,
                tokenSymbol := pending.tokenSymbol,
                tokenAddress := pending.tokenAddress, contextId := p.contextId,
                tabId := pending.tabId }
            { Outcome.pure
                { st with
                    nonce := o.nonceAfter,
                    tipShowerApprovals :=
                      mapErase st.tipShowerApprovals p.contextId }
                (some o.response) with
              ranBatch := true, sendTipCalls := o.sendTipCalls,
              broadcasts := o.broadcasts }
    else
      let recipients := filterRecipients p.recipients
      if recipients.isEmpty then
        Outcome.pure st (some (Resp.fail "No recipients provided."))
      else
        let o := executeTipShowerBatch st.isUnlocked st.hasWallet st.nonce
          env.batch
          { recipients := recipients, amountPerTip := p.amountPerTip,
            tokenSymbol := p.tokenSymbol, tokenAddress := p.tokenAddress,
            contextId := p.contextId, tabId := sender.tabId }
        { Outcome.pure { st with nonce := o.nonceAfter } (some o.response) with
          ranBatch := true, sendTipCalls := o.sendTipCalls,
          broadcasts := o.broadcasts }
  | .tipShowerBatch p =>
    let recipients := filterRecipients p.recipients
    if recipients.isEmpty then
      Outcome.pure st (some (Resp.fail "No recipients provided."))
    else
      match p.amountPerTip with
      | none => Outcome.pure st (some (Resp.fail "Invalid tip amount."))
      | some amt =>
        if amt ≤ 0 then
          Outcome.pure st (some (Resp.fail "Invalid tip amount."))
        else
          { Outcome.pure st none with enqueued := ["Tip Shower"] }
  | .createPromotion p =>
    if p.contextId ≠ "" then
      match mapGet st.promoApprovals p.contextId with
      | some pending =>
        if !pending.approved then
          Outcome.pure st (some (Resp.fail "Wallet approval is still pending."))
        else
          let o := executeCreatePromotion st.isUnlocked st.hasWallet st.nonce
            st.createPromotionInFlight env.promo (mergeApprovedPromo pending p)
          { Outcome.pure
              { st with
                  nonce := o.nonceAfter,
                  createPromotionInFlight := o.inFlightAfter,
                  promoApprovals := mapErase st.promoApprovals p.contextId }
              (some o.response) with
            ranCreatePromotion := true, broadcasts := o.broadcasts }
      | none =>
        let o := executeCreatePromotion st.isUnlocked st.hasWallet st.nonce
          st.createPromotionInFlight env.promo p
        { Outcome.pure
            { st with
                nonce := o.nonceAfter,
                createPromotionInFlight := o.inFlightAfter }
            (some o.response) with
          ranCreatePromotion := true, broadcasts := o.broadcasts }
    else
      let o := executeCreatePromotion st.isUnlocked st.hasWallet st.nonce
        st.createPromotionInFlight env.promo p
      { Outcome.pure
          { st with
              nonce := o.nonceAfter,
              createPromotionInFlight := o.inFlightAfter }
          (some o.response) with
        ranCreatePromotion := true, broadcasts := o.broadcasts }
  | .subscribeToToken p =>
    let o := executeSubscribeToToken st.isUnlocked st.hasWallet st.nonce env.sub p
    { Outcome.pure { st with nonce := o.nonceAfter } (some o.response) with
      ranSubscribe := true, broadcasts := o.broadcasts }

/-! ## Concrete fixtures -/

/-- A tip environment in which every external call succeeds. -/
def tipEnvOk : TipEnv :=
  { decimalsResult := .ok 18, balanceResult := .ok ((10 : Int) ^ 20),
    transferResult := .ok "0xtiphash", confirmationOk := true,
    resyncResult := .ok 7 }

/-- A well-formed `SEND_TIP` message. -/
def tipMsgOk : TipMessage :=
  { toAddress := "0xRecipient", amount := 1, tokenAddress := "0xPLUS" }

/-- A promotion environment in which every external call succeeds; the
ledger's pending nonce is 42 and the existing allowance is ample. -/
def promoEnvOk : PromoEnv :=
  { post2earnResult := .ok "0xPost2Earn",
    platformTokenResult := .ok "0xArenaToken",
    isAddressFn := fun a => a != "",
    decimalsResult := .ok 18,
    balanceResult := .ok ((10 : Int) ^ 24),
    allowanceResult := .ok ((10 : Int) ^ 24),
    pendingNonceResult := .ok 42,
    approveResult := .ok "0xapprovehash",
    approveWaitResult := .ok (),
    createResult := .ok "0xpromohash",
    nowTs := 1000, confirmationOk := true, resyncResult := .ok 9 }

/-- A well-formed `CREATE_PROMOTION` payload (no approval context). -/
def promoPayloadOk : PromoPayloadOpt :=
  { promotionType := some 0, slots := some 2, amount := some 500,
    minFollowers := some 0, expiresOn := some 2000, postId := some "post1",
    contentURI := some "", content := some "",
    rewardTokenAddress := some "0xArenaToken", arenaUserId := some "user1",
    contextId := "" }

/-- A subscription environment in which every external call succeeds. -/
def subEnvOk : SubEnv :=
  { isAddressFn := fun a => a != "", post2earnResult := .ok (),
    feeResult := .ok 100, avaxBalanceResult := .ok ((10 : Int) ^ 20),
    pendingNonceResult := .ok 42, subscribeResult := .ok "0xsubhash",
    confirmationOk := true, resyncResult := .ok 9 }

/-- A well-formed `SUBSCRIBE_TO_TOKEN` payload. -/
def subPayloadOk : SubPayloadOpt :=
  { tokenAddress := some "0xSomeToken", arenaUserId := some "user1",
    months := some 2 }

/-- A batch environment whose every tip call succeeds. -/
def batchEnvOk : BatchEnv :=
  { tipEnvAt := fun _ => tipEnvOk,
    tokensMapAddr := fun s => if s = "PLUS" then some "0xPLUS" else none,
    plusTokenAddr := "0xPLUS" }

/-- A dispatch environment built from the benign fixtures. -/
def envOk : Env :=
  { runtimeId := "extension-id", batch := batchEnvOk, promo := promoEnvOk,
    sub := subEnvOk,
    tokensMapAddr := fun s => if s = "PLUS" then some "0xPLUS" else none,
    freshQueueId := "queue-1" }

/-- An unlocked background state with the nonce cache at 5 and no pending
approval contexts. -/
def stBase : BgState :=
  { isUnlocked := true, hasWallet := true, nonce := some 5,
    createPromotionInFlight := false, tipShowerApprovals := [],
    promoApprovals := [] }

/-- A sender that is neither the extension nor from an allow-listed
origin. -/
def evilSender : MessageSender :=
  { senderId := "attacker-ext", originField := "https://evil.example",
    urlField := "", tabUrl := "", documentId := "", tabId := some 3 }

/-- The extension itself as a sender. -/
def extSender : MessageSender :=
  { senderId := "extension-id", originField := "", urlField := "",
    tabUrl := "", documentId := "", tabId := none }

/-- An already-approved tip-shower context entry. -/
def approvedTipEntry : PendingTipShowerApproval :=
  { amountPerTip := 1, tokenSymbol := "PLUS", tokenAddress := "0xPLUS",
    queueId := "queue-7", approved := true, tabId := some 3 }

/-- A not-yet-approved tip-shower context entry. -/
def pendingTipEntry : PendingTipShowerApproval :=
  { amountPerTip := 1, tokenSymbol := "PLUS", tokenAddress := "0xPLUS",
    queueId := "queue-7", approved := false, tabId := some 3 }

/-- An already-approved promotion context entry. -/
def approvedPromoEntry : PendingCreatePromotionApproval :=
  { promotionType := 0, slots := 2, amount := 500, minFollowers := 0,
    expiresOn := 2000, postId := "post1", contentURI := "",
    rewardTokenAddress := "0xArenaToken", rewardTokenSymbol := "ARENA",
    arenaUserId := "user1", queueId := "queue-8", approved := true,
    tabId := some 3 }

/-- A not-yet-approved promotion context entry. -/
def pendingPromoEntry : PendingCreatePromotionApproval :=
  { approvedPromoEntry with approved := false }

/-! ## Claim C5 -/

/-- C5: unlock fails with the no-wallet error exactly when no encrypted
wallet record exists in storage; any decryption failure — a thrown
decrypt error (wrong password or corrupt record alike) or a falsy decrypted
key — yields the one identical "Invalid password." error, and
`decryptWallet` likewise collapses every decrypt failure to one identical
"Incorrect password" error. -/
theorem c5_unlock_error_taxonomy :
    (∀ dr wc, unlockAndInitializeWallet none dr wc =
        .error "No wallet found in storage.") ∧
    (∀ u dr wc, unlockAndInitializeWallet (some u) dr wc ≠
        .error "No wallet found in storage.") ∧
    (∀ u e wc, unlockAndInitializeWallet (some u) (.error e) wc =
        .error "Invalid password.") ∧
    (∀ u wc, unlockAndInitializeWallet (some u) (.ok "") wc =
        .error "Invalid password.") ∧
    (∀ e₁ e₂, decryptWallet (.error e₁) = .error "Incorrect password" ∧
        decryptWallet (.error e₁) = decryptWallet (.error e₂)) := by
  refine ⟨fun _ _ => rfl, ?_, fun _ _ _ => rfl, fun _ _ => rfl,
    fun _ _ => ⟨rfl, rfl⟩⟩
  intro u dr wc h
  cases dr with
  | error e => simp [unlockAndInitializeWallet] at h
  | ok pk =>
    by_cases hpk : pk = ""
    · simp [unlockAndInitializeWallet, hpk] at h
    · rcases hwc : wc pk with e | a <;>
        simp [unlockAndInitializeWallet, hpk, hwc] at h

/-- Witness for C5 at concrete inputs. -/
theorem c5_unlock_error_taxonomy_witness :
    unlockAndInitializeWallet none (.ok "0xkey") (fun _ => .ok "0xaddr") =
      .error "No wallet found in storage." ∧
    unlockAndInitializeWallet (some ()) (.error (JsError.ofCodeMsg "" "bad auth tag"))
      (fun _ => .ok "0xaddr") = .error "Invalid password." ∧
    unlockAndInitializeWallet (some ()) (.error (JsError.ofCodeMsg "" "wrong password"))
      (fun _ => .ok "0xaddr") = .error "Invalid password." :=
  ⟨c5_unlock_error_taxonomy.1 _ _,
   c5_unlock_error_taxonomy.2.2.1 () (JsError.ofCodeMsg "" "bad auth tag") _,
   c5_unlock_error_taxonomy.2.2.1 () (JsError.ofCodeMsg "" "wrong password") _⟩

/-! ## Claim C10 -/

/-- C10: when `executeSendTip` fails with `INSUFFICIENT_BALANCE`, the
cached nonce has already been incremented by one — the reservation precedes
the balance check and is not released — and no broadcast was attempted. -/
theorem c10_insufficient_balance_consumes_nonce
    (n d : Nat) (env : TipEnv) (msg : TipMessage) (bal : Int)
    (hd : env.decimalsResult = .ok d) (hb : env.balanceResult = .ok bal)
    (hlt : bal < parseUnits msg.amount d) :
    executeSendTip true true (some n) env msg =
      { response := Resp.fail "INSUFFICIENT_BALANCE",
        nonceAfter := some (n + 1), broadcasts := [],
        balanceNotified := false, confirmFailureLogged := false } := by
  simp [executeSendTip, hd, hb, hlt]

/-- A tip environment whose token balance is zero. -/
def tipEnvPoor : TipEnv := { tipEnvOk with balanceResult := .ok 0 }

/-- Witness for C10: a 1-token tip against a zero balance consumes nonce 5,
leaving the cache at 6. -/
theorem c10_insufficient_balance_consumes_nonce_witness :
    executeSendTip true true (some 5) tipEnvPoor tipMsgOk =
      { response := Resp.fail "INSUFFICIENT_BALANCE", nonceAfter := some 6,
        broadcasts := [], balanceNotified := false,
        confirmFailureLogged := false } :=
  c10_insufficient_balance_consumes_nonce 5 18 tipEnvPoor tipMsgOk 0 rfl rfl
    (by decide)

/-! ## Claim C3 -/

/-- A broadcast-time nonce conflict as ethers reports it. -/
def conflictErr : JsError :=
  JsError.ofCodeMsg "NONCE_EXPIRED" "nonce has already been used"

/-- A tip environment whose broadcast fails with a nonce conflict and whose
resync read returns 9. -/
def tipEnvConflict : TipEnv :=
  { tipEnvOk with transferResult := .error conflictErr, resyncResult := .ok 9 }

/-- C3 counterexample: on the very first nonce-conflict failure
`executeSendTip` makes exactly one broadcast attempt and surfaces the error
at once — there is no retry, contrary to the claim that the submission is
retried exactly once and only a repeated conflict is surfaced. -/
theorem c3_counterexample :
    (executeSendTip true true (some 5) tipEnvConflict tipMsgOk).broadcasts = [5] ∧
    (executeSendTip true true (some 5) tipEnvConflict tipMsgOk).response =
      Resp.fail "nonce has already been used" ∧
    (executeSendTip true true (some 5) tipEnvConflict tipMsgOk).nonceAfter =
      some 9 :=
  ⟨rfl, rfl, rfl⟩

/-- C3 amended: on a nonce-conflict failure the submitter re-reads the
ledger's nonce and overwrites the cache, then surfaces the error
immediately — it does not retry; exactly one broadcast attempt is made. -/
theorem c3_conflict_resync_no_retry
    (n d m : Nat) (env : TipEnv) (msg : TipMessage) (bal : Int) (e : JsError)
    (hd : env.decimalsResult = .ok d) (hb : env.balanceResult = .ok bal)
    (hnlt : ¬ bal < parseUnits msg.amount d)
    (ht : env.transferResult = .error e)
    (hcode : isNonceConflictCode e.code = true)
    (hrs : env.resyncResult = .ok m) :
    executeSendTip true true (some n) env msg =
      { response := Resp.fail (tipSurfacedError e), nonceAfter := some m,
        broadcasts := [n], balanceNotified := false,
        confirmFailureLogged := false } := by
  simp [executeSendTip, hd, hb, hnlt, ht, tipCatch, hcode, hrs]

/-- Witness for C3 at the concrete conflict fixture. -/
theorem c3_conflict_resync_no_retry_witness :
    isNonceConflictCode conflictErr.code = true ∧
    executeSendTip true true (some 5) tipEnvConflict tipMsgOk =
      { response := Resp.fail "nonce has already been used",
        nonceAfter := some 9, broadcasts := [5], balanceNotified := false,
        confirmFailureLogged := false } :=
  ⟨rfl, c3_conflict_resync_no_retry 5 18 9 tipEnvConflict tipMsgOk
    ((10 : Int) ^ 20) conflictErr rfl rfl (by decide) rfl rfl rfl⟩

/-! ## Claim C6 -/

/-- A `SEND_TIP` message with amount -1. -/
def tipMsgNeg : TipMessage :=
  { toAddress := "0xRecipient", amount := -1, tokenAddress := "0xPLUS" }

/-- A tip environment whose broadcast call throws the ethers encoding error
a negative transfer amount produces. -/
def tipEnvNegAmount : TipEnv :=
  { tipEnvOk with
      transferResult := .error (JsError.ofCodeMsg "INVALID_ARGUMENT" "value out-of-bounds") }

/-- C6 counterexample: a tip of amount -1 is not rejected by any
invalid-amount check — the nonce cache is incremented from 5 to 6 (a nonce
is reserved), the broadcast call is reached at nonce 5, and the error that
comes back is the library's pass-through message, contrary to the claim
that the request is rejected before any nonce is reserved. -/
theorem c6_counterexample :
    (executeSendTip true true (some 5) tipEnvNegAmount tipMsgNeg).nonceAfter =
      some 6 ∧
    (executeSendTip true true (some 5) tipEnvNegAmount tipMsgNeg).broadcasts =
      [5] ∧
    (executeSendTip true true (some 5) tipEnvNegAmount tipMsgNeg).response =
      Resp.fail "value out-of-bounds" :=
  ⟨rfl, rfl, rfl⟩

/-- C6 amended: `executeSendTip` performs no amount-positivity validation;
for any non-positive amount the nonce is reserved anyway (the cache is
incremented before any check), the balance check passes vacuously, and the
failure — here a non-conflict throw from the transfer call — surfaces only
after the nonce was consumed. -/
theorem c6_no_amount_validation
    (n d : Nat) (env : TipEnv) (msg : TipMessage) (bal : Int) (e : JsError)
    (hamt : msg.amount ≤ 0)
    (hd : env.decimalsResult = .ok d) (hb : env.balanceResult = .ok bal)
    (hbal : 0 ≤ bal) (ht : env.transferResult = .error e)
    (hcode : isNonceConflictCode e.code = false) :
    executeSendTip true true (some n) env msg =
      { response := Resp.fail (tipSurfacedError e), nonceAfter := some (n + 1),
        broadcasts := [n], balanceNotified := false,
        confirmFailureLogged := false } := by
  have hple : parseUnits msg.amount d ≤ 0 :=
    mul_nonpos_iff.mpr (Or.inr ⟨hamt, by positivity⟩)
  have hnlt : ¬ bal < parseUnits msg.amount d := not_lt.mpr (hple.trans hbal)
  simp [executeSendTip, hd, hb, hnlt, ht, tipCatch, hcode]

/-- Witness for C6 at the concrete amount -1 fixture. -/
theorem c6_no_amount_validation_witness :
    tipMsgNeg.amount ≤ 0 ∧
    executeSendTip true true (some 5) tipEnvNegAmount tipMsgNeg =
      { response := Resp.fail "value out-of-bounds", nonceAfter := some 6,
        broadcasts := [5], balanceNotified := false,
        confirmFailureLogged := false } :=
  ⟨by decide, c6_no_amount_validation 5 18 tipEnvNegAmount tipMsgNeg
    ((10 : Int) ^ 20) (JsError.ofCodeMsg "INVALID_ARGUMENT" "value out-of-bounds")
    (by decide) rfl rfl (by positivity) rfl rfl⟩

/-! ## Claim C7 -/

/-- C7: `executeSendTip`'s response never depends on the confirmation
outcome (the response is returned before `tx.wait()` resolves), and a
successful broadcast yields `{ success, txHash }` immediately — a failed
confirmation is only logged, a successful one only emits the balance
notification; neither changes the response. -/
theorem c7_response_before_confirmation :
    (∀ u w n0 env msg b,
      (executeSendTip u w n0 { env with confirmationOk := b } msg).response =
        (executeSendTip u w n0 env msg).response) ∧
    (∀ n d env msg bal h, env.decimalsResult = .ok d →
      env.balanceResult = .ok bal → ¬ bal < parseUnits msg.amount d →
      env.transferResult = .ok h →
      ((executeSendTip true true (some n) env msg).response = Resp.okHash h ∧
       (executeSendTip true true (some n)
          { env with confirmationOk := false } msg).confirmFailureLogged = true ∧
       (executeSendTip true true (some n)
          { env with confirmationOk := true } msg).balanceNotified = true)) := by
  constructor
  · rintro u w n0 ⟨dres, bres, tres, cok, rres⟩ msg b
    rcases u <;> rcases w <;> rcases n0 with _ | n <;>
      rcases dres with e | d <;> rcases bres with e2 | bal <;>
      rcases tres with e3 | h <;>
      first
        | (simp [executeSendTip, tipCatch]; done)
        | (by_cases hlt : bal < parseUnits msg.amount d <;>
            simp [executeSendTip, tipCatch, hlt])
  · intro n d env msg bal h hd hb hnlt ht
    refine ⟨?_, ?_, ?_⟩ <;> simp [executeSendTip, hd, hb, hnlt, ht]

/-- Witness for C7 at the benign fixture. -/
theorem c7_response_before_confirmation_witness :
    (executeSendTip true true (some 5)
        { tipEnvOk with confirmationOk := false } tipMsgOk).response =
      (executeSendTip true true (some 5) tipEnvOk tipMsgOk).response ∧
    (executeSendTip true true (some 5) tipEnvOk tipMsgOk).response =
      Resp.okHash "0xtiphash" :=
  ⟨c7_response_before_confirmation.1 true true (some 5) tipEnvOk tipMsgOk false,
   (c7_response_before_confirmation.2 5 18 tipEnvOk tipMsgOk ((10 : Int) ^ 20)
      "0xtiphash" rfl rfl (by decide) rfl).1⟩

/-! ## Claim C1 -/

/-- C1 counterexample: `evilSender` is untrusted, yet a `CREATE_PROMOTION`
message from it is not rejected with an unauthorized-sender error — the
promotion executor runs, a transaction is broadcast, and the response is a
success, contrary to the claim that every fund-moving operation from an
untrusted sender is rejected before any action is enqueued or executed. -/
theorem c1_counterexample :
    isTrustedSender envOk.runtimeId evilSender = false ∧
    (onMessage envOk stBase evilSender
        (.createPromotion promoPayloadOk)).ranCreatePromotion = true ∧
    (onMessage envOk stBase evilSender
        (.createPromotion promoPayloadOk)).response =
      some (Resp.okHash "0xpromohash") ∧
    (onMessage envOk stBase evilSender
        (.createPromotion promoPayloadOk)).broadcasts = [42] :=
  ⟨rfl, rfl, rfl, rfl⟩

/-- C1 amended: only `SEND_TIP` is guarded by `isTrustedSender` — an
untrusted sender's `SEND_TIP` is rejected with "Unauthorized sender" and
nothing is enqueued or executed, while `CREATE_PROMOTION`,
`SUBSCRIBE_TO_TOKEN`, `TIP_SHOWER_BATCH` and `QUEUE_TIP_SHOWER` never
consult the sender's trust: their outcome is identical for any two senders
sharing a tab id. -/
theorem c1_trust_check_only_send_tip
    (env : Env) (st : BgState) (sender s₁ s₂ : MessageSender)
    (hunt : isTrustedSender env.runtimeId sender = false)
    (htab : s₁.tabId = s₂.tabId) :
    (∀ m ts rh, onMessage env st sender (.sendTip m ts rh) =
        Outcome.pure st (some (Resp.fail "Unauthorized sender"))) ∧
    (∀ p, onMessage env st s₁ (.createPromotion p) =
        onMessage env st s₂ (.createPromotion p)) ∧
    (∀ p, onMessage env st s₁ (.subscribeToToken p) =
        onMessage env st s₂ (.subscribeToToken p)) ∧
    (∀ p, onMessage env st s₁ (.tipShowerBatch p) =
        onMessage env st s₂ (.tipShowerBatch p)) ∧
    (∀ p, onMessage env st s₁ (.queueTipShower p) =
        onMessage env st s₂ (.queueTipShower p)) := by
  refine ⟨fun m ts rh => ?_, fun p => rfl, fun p => rfl, fun p => rfl,
    fun p => ?_⟩
  · simp [onMessage, hunt]
  · simp only [onMessage, htab]

/-- Witness for C1 at the untrusted concrete sender. -/
theorem c1_trust_check_only_send_tip_witness :
    isTrustedSender envOk.runtimeId evilSender = false ∧
    onMessage envOk stBase evilSender (.sendTip tipMsgOk "PLUS" "alice") =
      Outcome.pure stBase (some (Resp.fail "Unauthorized sender")) :=
  ⟨rfl, (c1_trust_check_only_send_tip envOk stBase evilSender evilSender
    evilSender rfl rfl).1 tipMsgOk "PLUS" "alice"⟩

/-! ## Claim C2 -/

/-- C2 counterexample: with the nonce cache holding 5,
`executeCreatePromotion` broadcasts at the ledger's pending nonce 42 — not
by taking the cached value and incrementing it — and then overwrites the
cache to 43, contrary to the claim that every submission reserves its nonce
from the cache. -/
theorem c2_counterexample :
    (executeCreatePromotion true true (some 5) false promoEnvOk
        promoPayloadOk).broadcasts = [42] ∧
    (executeCreatePromotion true true (some 5) false promoEnvOk
        promoPayloadOk).nonceAfter = some 43 ∧
    (executeCreatePromotion true true (some 5) false promoEnvOk
        promoPayloadOk).response = Resp.okHash "0xpromohash" :=
  ⟨rfl, rfl, rfl⟩

/-- Every broadcast of the promotion submission stage is at the ledger's
pending nonce `b` or at `b + 1`. -/
theorem promoSubmit_broadcasts (env : PromoEnv) (nonce0 : Option Nat)
    (va : Int) (td b : Nat) (hpn : env.pendingNonceResult = .ok b) :
    (promoSubmit env nonce0 va td).broadcasts ∈ [[], [b], [b, b + 1]] := by
  unfold promoSubmit finishPromo promoCatch PromoOutcome.failed
  repeat' split
  all_goals simp_all

/-- The token stage broadcasts only through the submission stage. -/
theorem promoTokenStage_broadcasts (env : PromoEnv) (nonce0 : Option Nat)
    (p : PromoPayloadOpt) (b : Nat) (hpn : env.pendingNonceResult = .ok b) :
    (promoTokenStage env nonce0 p).broadcasts ∈ [[], [b], [b, b + 1]] := by
  unfold promoTokenStage
  dsimp only
  repeat' split
  all_goals
    first
      | exact promoSubmit_broadcasts _ _ _ _ _ hpn
      | simp_all [promoCatch, PromoOutcome.failed]

/-- C2 amended: only `executeSendTip` takes its nonce from the cache (any
nonce it broadcasts is exactly the cached value), while
`executeCreatePromotion` and `executeSubscribeToToken` broadcast at the
ledger's pending nonce `b` returned by `getNonce("pending")` (the
promotion additionally at `b + 1` after an allowance approval). -/
theorem c2_nonce_sources :
    (∀ n env msg,
      (executeSendTip true true (some n) env msg).broadcasts ∈ [[], [n]]) ∧
    (∀ u w n0 infl env p b, env.pendingNonceResult = .ok b →
      (executeCreatePromotion u w n0 infl env p).broadcasts ∈
        [[], [b], [b, b + 1]]) ∧
    (∀ u w n0 env p b, env.pendingNonceResult = .ok b →
      (executeSubscribeToToken u w n0 env p).broadcasts ∈ [[], [b]]) := by
  refine ⟨?_, ?_, ?_⟩
  · intro n env msg
    unfold executeSendTip tipCatch
    dsimp only
    repeat' split
    all_goals simp_all
  · intro u w n0 infl env p b hpn
    unfold executeCreatePromotion
    repeat' split
    all_goals
      first
        | exact promoTokenStage_broadcasts _ _ _ _ hpn
        | simp_all [PromoOutcome.failed]
  · intro u w n0 env p b hpn
    unfold executeSubscribeToToken subCatch SubOutcome.failed
    dsimp only
    repeat' split
    all_goals simp_all

/-- Witness for C2: the tip broadcasts at the cached 5, the promotion and
subscription at the ledger's pending 42. -/
theorem c2_nonce_sources_witness :
    (executeSendTip true true (some 5) tipEnvOk tipMsgOk).broadcasts ∈
      [[], [5]] ∧
    (executeCreatePromotion true true (some 5) false promoEnvOk
        promoPayloadOk).broadcasts ∈ [[], [42], [42, 43]] ∧
    (executeSubscribeToToken true true (some 5) subEnvOk
        subPayloadOk).broadcasts ∈ [[], [42]] :=
  ⟨c2_nonce_sources.1 5 tipEnvOk tipMsgOk,
   c2_nonce_sources.2.1 true true (some 5) false promoEnvOk promoPayloadOk
     42 rfl,
   c2_nonce_sources.2.2 true true (some 5) subEnvOk subPayloadOk 42 rfl⟩

/-! ## Claim C4 -/

/-- A state whose tip-shower and promotion maps both hold an
already-approved context under "ctx1". -/
def stApprovedCtx : BgState :=
  { stBase with
      tipShowerApprovals := [("ctx1", approvedTipEntry)],
      promoApprovals := [("ctx1", approvedPromoEntry)] }

/-- C4 counterexample: cancelling the already-approved context "ctx1"
returns `{ success: true }` — not an error — while the queue cancellation
is skipped and the context silently deleted, contrary to the claim that
such a cancellation is rejected with a clear error. -/
theorem c4_counterexample :
    approvedTipEntry.approved = true ∧
    (onMessage envOk stApprovedCtx extSender
        (.cancelTipShowerApproval "ctx1" "")).response = some Resp.ok ∧
    (onMessage envOk stApprovedCtx extSender
        (.cancelTipShowerApproval "ctx1" "")).cancelledQueue = [] ∧
    (onMessage envOk stApprovedCtx extSender
        (.cancelTipShowerApproval "ctx1" "")).state.tipShowerApprovals = [] :=
  ⟨rfl, rfl, rfl, rfl⟩

/-- C4 amended: a cancellation naming an already-approved context is not
rejected — both cancel handlers respond `{ success: true }`, delete the
context, and invoke no queue cancellation; only a missing contextId or an
unknown context yields an error response. -/
theorem c4_cancel_after_approval_succeeds
    (env : Env) (st : BgState) (sender : MessageSender) (ctx reason : String)
    (pt : PendingTipShowerApproval) (pp : PendingCreatePromotionApproval)
    (hctx : ctx ≠ "")
    (ht : mapGet st.tipShowerApprovals ctx = some pt)
    (hpt : pt.approved = true)
    (hp : mapGet st.promoApprovals ctx = some pp)
    (hpp : pp.approved = true) :
    onMessage env st sender (.cancelTipShowerApproval ctx reason) =
      Outcome.pure
        { st with tipShowerApprovals := mapErase st.tipShowerApprovals ctx }
        (some Resp.ok) ∧
    onMessage env st sender (.cancelCreatePromotionApproval ctx reason) =
      Outcome.pure
        { st with promoApprovals := mapErase st.promoApprovals ctx }
        (some Resp.ok) := by
  constructor <;> simp [onMessage, hctx, ht, hp, hpt, hpp, Outcome.pure]

/-- Witness for C4 at the concrete approved contexts. -/
theorem c4_cancel_after_approval_succeeds_witness :
    mapGet stApprovedCtx.tipShowerApprovals "ctx1" = some approvedTipEntry ∧
    onMessage envOk stApprovedCtx extSender
        (.cancelTipShowerApproval "ctx1" "user cancelled") =
      Outcome.pure
        { stApprovedCtx with
            tipShowerApprovals := mapErase stApprovedCtx.tipShowerApprovals "ctx1" }
        (some Resp.ok) ∧
    onMessage envOk stApprovedCtx extSender
        (.cancelCreatePromotionApproval "ctx1" "user cancelled") =
      Outcome.pure
        { stApprovedCtx with
            promoApprovals := mapErase stApprovedCtx.promoApprovals "ctx1" }
        (some Resp.ok) :=
  ⟨rfl,
   (c4_cancel_after_approval_succeeds envOk stApprovedCtx extSender "ctx1"
      "user cancelled" approvedTipEntry approvedPromoEntry (by decide) rfl rfl
      rfl rfl).1,
   (c4_cancel_after_approval_succeeds envOk stApprovedCtx extSender "ctx1"
      "user cancelled" approvedTipEntry approvedPromoEntry (by decide) rfl rfl
      rfl rfl).2⟩

/-! ## Claim C8 -/

/-- The promotion payload pointed at a given approval context. -/
def promoPayloadWithCtx (ctx : String) : PromoPayloadOpt :=
  { promoPayloadOk with contextId := ctx }

/-- C8 counterexample: a `CREATE_PROMOTION` naming a stale (missing)
context is not rejected — the handler falls back to direct execution, the
executor runs and broadcasts, contrary to the claim that a missing context
is rejected with no executor run. -/
theorem c8_counterexample :
    mapGet stBase.promoApprovals "stale-ctx" = none ∧
    (onMessage envOk stBase extSender
        (.createPromotion (promoPayloadWithCtx "stale-ctx"))).ranCreatePromotion
      = true ∧
    (onMessage envOk stBase extSender
        (.createPromotion (promoPayloadWithCtx "stale-ctx"))).response =
      some (Resp.okHash "0xpromohash") :=
  ⟨rfl, rfl, rfl⟩

/-- C8 amended: `QUEUE_TIP_SHOWER` with `useExistingApprovalContext`
rejects a missing context and an unapproved context without running any
executor; `CREATE_PROMOTION` rejects an existing-but-unapproved context
without running the executor and runs it once the context is approved —
but a missing (stale) context falls back to direct execution instead of
being rejected. -/
theorem c8_context_gating (env : Env) (st : BgState) (sender : MessageSender) :
    (∀ p, p.useExistingApprovalContext = true →
      mapGet st.tipShowerApprovals p.contextId = none →
      onMessage env st sender (.queueTipShower p) =
        Outcome.pure st (some (Resp.fail "No pending wallet approval found."))) ∧
    (∀ p pend, p.useExistingApprovalContext = true →
      mapGet st.tipShowerApprovals p.contextId = some pend →
      pend.approved = false →
      onMessage env st sender (.queueTipShower p) =
        Outcome.pure st (some (Resp.fail "Wallet approval is still pending."))) ∧
    (∀ p pend, p.contextId ≠ "" →
      mapGet st.promoApprovals p.contextId = some pend →
      pend.approved = false →
      onMessage env st sender (.createPromotion p) =
        Outcome.pure st (some (Resp.fail "Wallet approval is still pending."))) ∧
    (∀ p pend, p.contextId ≠ "" →
      mapGet st.promoApprovals p.contextId = some pend →
      pend.approved = true →
      (onMessage env st sender (.createPromotion p)).ranCreatePromotion = true) ∧
    (∀ p, p.contextId ≠ "" →
      mapGet st.promoApprovals p.contextId = none →
      (onMessage env st sender (.createPromotion p)).ranCreatePromotion = true) := by
  refine ⟨fun p hu hn => ?_, fun p pend hu hs hap => ?_,
    fun p pend hctx hs hap => ?_, fun p pend hctx hs hap => ?_,
    fun p hctx hn => ?_⟩
  · simp [onMessage, hu, hn]
  · simp [onMessage, hu, hs, hap]
  · simp [onMessage, hctx, hs, hap]
  · simp [onMessage, hctx, hs, hap, Outcome.pure]
  · simp [onMessage, hctx, hn, Outcome.pure]

/-- A state mixing missing, unapproved and approved contexts. -/
def stCtxMix : BgState :=
  { stBase with
      tipShowerApprovals := [("ctxB", pendingTipEntry)],
      promoApprovals := [("ctxC", pendingPromoEntry), ("ctxD", approvedPromoEntry)] }

/-- A `QUEUE_TIP_SHOWER` payload using an existing approval context. -/
def queuePayloadFor (ctx : String) : QueueTipShowerPayload :=
  { useExistingApprovalContext := true, contextId := ctx,
    recipients := [{ handle := "alice", address := "0xAlice" }],
    amountPerTip := 1, tokenSymbol := "PLUS", tokenAddress := "0xPLUS" }

/-- Witness for C8 at the concrete mixed-context state. -/
theorem c8_context_gating_witness :
    onMessage envOk stCtxMix extSender (.queueTipShower (queuePayloadFor "ctxA")) =
      Outcome.pure stCtxMix (some (Resp.fail "No pending wallet approval found.")) ∧
    onMessage envOk stCtxMix extSender (.queueTipShower (queuePayloadFor "ctxB")) =
      Outcome.pure stCtxMix (some (Resp.fail "Wallet approval is still pending.")) ∧
    onMessage envOk stCtxMix extSender
        (.createPromotion (promoPayloadWithCtx "ctxC")) =
      Outcome.pure stCtxMix (some (Resp.fail "Wallet approval is still pending.")) ∧
    (onMessage envOk stCtxMix extSender
        (.createPromotion (promoPayloadWithCtx "ctxD"))).ranCreatePromotion = true ∧
    (onMessage envOk stCtxMix extSender
        (.createPromotion (promoPayloadWithCtx "ctxE"))).ranCreatePromotion = true :=
  ⟨(c8_context_gating envOk stCtxMix extSender).1 (queuePayloadFor "ctxA")
     rfl rfl,
   (c8_context_gating envOk stCtxMix extSender).2.1 (queuePayloadFor "ctxB")
     pendingTipEntry rfl rfl rfl,
   (c8_context_gating envOk stCtxMix extSender).2.2.1
     (promoPayloadWithCtx "ctxC") pendingPromoEntry (by decide) rfl rfl,
   (c8_context_gating envOk stCtxMix extSender).2.2.2.1
     (promoPayloadWithCtx "ctxD") approvedPromoEntry (by decide) rfl rfl,
   (c8_context_gating envOk stCtxMix extSender).2.2.2.2
     (promoPayloadWithCtx "ctxE") (by decide) rfl⟩

/-! ## Claim C9 -/

/-- Keys of `mapSet` stay duplicate-free. -/
theorem mapSet_keys_nodup {α : Type} (l : List (String × α)) (k : String)
    (v : α) (h : (l.map Prod.fst).Nodup) :
    ((mapSet l k v).map Prod.fst).Nodup := by
  unfold mapSet mapErase
  simp only [List.map_cons]
  refine List.nodup_cons.mpr ⟨?_, ?_⟩
  · intro hmem
    simp only [List.mem_map] at hmem
    obtain ⟨kv, hkv, hfst⟩ := hmem
    have hne := List.of_mem_filter hkv
    simp only [decide_eq_true_eq] at hne
    exact hne hfst
  · exact h.sublist ((List.filter_sublist _).map Prod.fst)

/-- C9: an approval request whose contextId already has a live pending
context is rejected with the duplicate-pending error and the state (both
maps, queue, everything) is left unchanged; and the request handlers
preserve duplicate-freedom of the context keys, so at most one live
context exists per contextId. -/
theorem c9_duplicate_context_rejected
    (env : Env) (st : BgState) (sender : MessageSender) :
    (∀ p v, mapGet st.tipShowerApprovals p.contextId = some v →
      p.contextId ≠ "" →
      onMessage env st sender (.requestTipShowerApproval p) =
        Outcome.pure st
          (some (Resp.fail "A tip shower approval is already pending."))) ∧
    (∀ p v, mapGet st.promoApprovals p.contextId = some v →
      p.contextId ≠ "" →
      onMessage env st sender (.requestCreatePromotionApproval p) =
        Outcome.pure st
          (some (Resp.fail "A promotion approval is already pending."))) ∧
    (∀ p, (st.tipShowerApprovals.map Prod.fst).Nodup →
      (((onMessage env st sender
          (.requestTipShowerApproval p)).state.tipShowerApprovals).map
            Prod.fst).Nodup) ∧
    (∀ p, (st.promoApprovals.map Prod.fst).Nodup →
      (((onMessage env st sender
          (.requestCreatePromotionApproval p)).state.promoApprovals).map
            Prod.fst).Nodup) := by
  refine ⟨fun p v hv hne => ?_, fun p v hv hne => ?_, fun p h => ?_,
    fun p h => ?_⟩
  · simp [onMessage, hne, hv]
  · simp [onMessage, hne, hv]
  · simp only [onMessage, Outcome.pure]
    repeat' split
    all_goals
      first
        | exact h
        | exact mapSet_keys_nodup _ _ _ h
  · simp only [onMessage, Outcome.pure]
    repeat' split
    all_goals
      first
        | exact h
        | exact mapSet_keys_nodup _ _ _ h

/-- A duplicate tip-shower approval request for the live context "ctxB". -/
def dupTipRequest : TipShowerApprovalRequest :=
  { contextId := "ctxB", count := 3, amountPerTip := some 1,
    tokenSymbol := "PLUS" }

/-- A duplicate promotion approval request for the live context "ctxC". -/
def dupPromoRequest : PromoApprovalRequest :=
  { contextId := "ctxC", promotionType := 0, slots := 2, amount := 500,
    minFollowers := 0, expiresOn := 2000, postId := "post1",
    contentURI := "", rewardTokenAddress := "0xArenaToken",
    rewardTokenSymbol := "ARENA", arenaUserId := "user1" }

/-- Witness for C9 at the concrete duplicate requests. -/
theorem c9_duplicate_context_rejected_witness :
    onMessage envOk stCtxMix extSender
        (.requestTipShowerApproval dupTipRequest) =
      Outcome.pure stCtxMix
        (some (Resp.fail "A tip shower approval is already pending.")) ∧
    onMessage envOk stCtxMix extSender
        (.requestCreatePromotionApproval dupPromoRequest) =
      Outcome.pure stCtxMix
        (some (Resp.fail "A promotion approval is already pending.")) ∧
    (((onMessage envOk stCtxMix extSender
        (.requestTipShowerApproval dupTipRequest)).state.tipShowerApprovals).map
          Prod.fst).Nodup :=
  ⟨(c9_duplicate_context_rejected envOk stCtxMix extSender).1 dupTipRequest
     pendingTipEntry rfl (by decide),
   (c9_duplicate_context_rejected envOk stCtxMix extSender).2.1 dupPromoRequest
     pendingPromoEntry rfl (by decide),
   (c9_duplicate_context_rejected envOk stCtxMix extSender).2.2.1 dupTipRequest
     (by decide)⟩

end ArenaPlus
